import Mathlib

/-!
Verification of the sense-actuate-report firmware sketch (`src/code.ino`).

The sketch reads two DHT11 sensors and one analog sound sensor into three
global variables, drives three indicator LEDs from fixed thresholds,
serializes the reading as JSON and POSTs it to a fixed server URL, then
sleeps 15 seconds, forever.

Shallow embedding conventions:
* C `float` values are modelled as `ℚ`, C `int` as `ℤ`.
* The three global variables (`temperature`, `humidity`, `soundValue`)
  are gathered into a `Globals` record that is threaded explicitly.
* External inputs (sensor samples, Wi-Fi status, the HTTP response code
  and body) are supplied by an environment record `CycleEnv`.
* Side effects (serial prints, HTTP client calls, delays, LED writes)
  are returned as explicit data (lists of log lines / events / delays).
-/

namespace Sketch

/-- Wi-Fi association states (subset of the `wl_status_t` enum used by the
sketch: only the comparison with `WL_CONNECTED` matters). -/
inductive WifiStatus
  | WL_IDLE_STATUS
  | WL_CONNECTED
  | WL_DISCONNECTED
  deriving DecidableEq, Repr

/-- Digital output levels written by `digitalWrite`. -/
inductive Level
  | LOW
  | HIGH
  deriving DecidableEq, Repr

/-- The three global variables of the sketch:
`float temperature = 0.0; float humidity = 0.0; int soundValue = 0;`. -/
structure Globals where
  temperature : ℚ
  humidity : ℚ
  soundValue : ℤ
  deriving DecidableEq, Repr

/-- Result type of `DHTesp::getTempAndHumidity()`. -/
structure TempAndHumidity where
  temperature : ℚ
  humidity : ℚ
  deriving DecidableEq, Repr

/-- External inputs consumed during one iteration of `loop()`:
the two DHT sensor samples, the analog sound sample, the Wi-Fi status,
and the HTTP response (code and body) the server would give to a POST. -/
structure CycleEnv where
  tempSensor : TempAndHumidity
  humSensor : TempAndHumidity
  analogSound : ℤ
  wifiStatus : WifiStatus
  postResponseCode : ℤ
  responseBody : String
  deriving DecidableEq, Repr

/-- The three LED output states written by `controlLEDs`. -/
structure LedState where
  tempLed : Level
  humLed : Level
  soundLed : Level
  deriving DecidableEq, Repr

/-- `const char* serverURL = "http://192.168.137.1:5000/data";` -/
def serverURL : String := "http://192.168.137.1:5000/data"

/-- `readDHTData`: reads both DHT sensors and assigns
`temperature = tempData.temperature; humidity = humData.humidity;`.
It does not touch `soundValue`. -/
def readDHTData (env : CycleEnv) (g : Globals) : Globals :=
  let tempData := env.tempSensor
  let humData := env.humSensor
  { g with temperature := tempData.temperature, humidity := humData.humidity }

/-- `readSoundLevel`: `soundValue = analogRead(SOUND_SENSOR_PIN);`.
It does not touch `temperature` or `humidity`. -/
def readSoundLevel (env : CycleEnv) (g : Globals) : Globals :=
  { g with soundValue := env.analogSound }

/-- `controlLEDs`: writes the three LED pins from the fixed thresholds
`temperature >= 25.6`, `humidity > 40.0`, `soundValue >= 200`. -/
def controlLEDs (g : Globals) : LedState :=
  { tempLed := if g.temperature ≥ 25.6 then Level.HIGH else Level.LOW
    humLed := if g.humidity > 40.0 then Level.HIGH else Level.LOW
    soundLed := if g.soundValue ≥ 200 then Level.HIGH else Level.LOW }

end Sketch

namespace Sketch

/-! ### Decimal rendering, modelling `String(float, 1)` and `String(int)` -/

/-- The ASCII character of a decimal digit. -/
def digitChar (d : ℕ) : Char := Char.ofNat (48 + d)

/-- Numeric value of an ASCII digit character. -/
def digitVal (c : Char) : ℕ := c.toNat - 48

/-- Big-endian decimal digit characters of a natural number
(`"0"` for zero, no leading zeros otherwise). -/
def natChars (n : ℕ) : List Char :=
  if n = 0 then [digitChar 0] else ((Nat.digits 10 n).map digitChar).reverse

/-- Decimal rendering of an integer, with a leading minus sign when
negative: models Arduino `String(int)`. -/
def intChars (z : ℤ) : List Char :=
  if z < 0 then Char.ofNat 45 :: natChars z.natAbs else natChars z.natAbs

/-- Rendering of a rational to exactly one decimal place (round to the
nearest tenth, then print `⟨sign⟩⟨integer part⟩.⟨one digit⟩`): models
Arduino `String(float, 1)`. -/
def fixed1Chars (q : ℚ) : List Char :=
  let n : ℤ := round (10 * q)
  let m : ℕ := n.natAbs
  (if n < 0 then [Char.ofNat 45] else []) ++
    natChars (m / 10) ++ Char.ofNat 46 :: [digitChar (m % 10)]

/-- `String(x, 1)` as a `String`. -/
def formatFixed1 (q : ℚ) : String := String.mk (fixed1Chars q)

/-- `String(z)` as a `String`. -/
def intString (z : ℤ) : String := String.mk (intChars z)

/-- The JSON payload built by `sendDataToPythonServer`:
`"{" + "\"temperature\":" + String(temperature, 1) + "," + ...`. -/
def jsonPayload (g : Globals) : String :=
  "\x7b" ++ "\"temperature\":" ++ formatFixed1 g.temperature ++ "," ++
    "\"humidity\":" ++ formatFixed1 g.humidity ++ "," ++
    "\"sound\":" ++ intString g.soundValue ++ "\x7d"

/-! ### The reporter (`sendDataToPythonServer`) -/

/-- Calls made on the `HTTPClient` object, in order. -/
inductive HttpEvent
  | begin (url : String)
  | addHeader (key value : String)
  | post (payload : String)
  | getString
  | endCall
  deriving DecidableEq, Repr

/-- Result of one call to `sendDataToPythonServer`: the (unchanged)
globals, the serial log lines it printed, and the HTTP client calls it
performed. -/
structure SendOutcome where
  globals : Globals
  log : List String
  events : List HttpEvent
  deriving DecidableEq, Repr

/-- `sendDataToPythonServer`: if `WiFi.status() == WL_CONNECTED`, build
the JSON payload, `http.begin(serverURL)`, add the JSON content-type
header, `http.POST(payload)`; on a positive response code fetch and log
the response body, otherwise log the error code; finally `http.end()`.
If not connected, only log a skip message. -/
def sendDataToPythonServer (env : CycleEnv) (g : Globals) : SendOutcome :=
  if env.wifiStatus = WifiStatus.WL_CONNECTED then
    let payload := jsonPayload g
    let httpResponseCode := env.postResponseCode
    { globals := g
      log :=
        if httpResponseCode > 0 then
          ["Response: " ++ env.responseBody]
        else
          ["Error sending data: " ++ toString httpResponseCode]
      events :=
        [HttpEvent.begin serverURL,
         HttpEvent.addHeader "Content-Type" "application/json",
         HttpEvent.post payload] ++
        (if httpResponseCode > 0 then [HttpEvent.getString] else []) ++
        [HttpEvent.endCall] }
  else
    { globals := g
      log := ["Wi-Fi disconnected. Cannot send data."]
      events := [] }

/-! ### `connectToWiFi` -/

/-- One execution of `connectToWiFi`, with the Wi-Fi status at each poll
supplied by `statusAt` and termination bounded by `fuel` (the real loop
`while (WiFi.status() != WL_CONNECTED) delay(500);` is unbounded, so a
run that does not connect within any fuel models divergence).
On success it returns the index of the first connected poll together
with the list of delays performed (one `500` per failed poll). -/
def connectRun (statusAt : ℕ → WifiStatus) : ℕ → Option (ℕ × List ℕ)
  | 0 => none
  | fuel + 1 =>
    if statusAt 0 = WifiStatus.WL_CONNECTED then some (0, [])
    else
      match connectRun (fun n => statusAt (n + 1)) fuel with
      | some (k, ds) => some (k + 1, 500 :: ds)
      | none => none

/-! ### The main loop -/

/-- The phases of one iteration of `loop()`, in execution order. -/
inductive CycleStep
  | senseDHT
  | senseSound
  | actuate
  | logSerial
  | report
  | sleep (ms : ℕ)
  deriving DecidableEq, Repr

/-- The serial line printed each cycle:
`Temperature: <t> °C || Humidity: <h> % || Sound Level: <s>`. -/
def serialReadingLine (g : Globals) : String :=
  "Temperature: " ++ formatFixed1 g.temperature ++ " °C || Humidity: " ++
    formatFixed1 g.humidity ++ " % || Sound Level: " ++ intString g.soundValue

/-- Everything one iteration of `loop()` produces. -/
structure CycleResult where
  globals : Globals
  leds : LedState
  serialLog : List String
  events : List HttpEvent
  delays : List ℕ
  steps : List CycleStep
  deriving DecidableEq, Repr

/-- One iteration of `loop()`: `readDHTData(); readSoundLevel();
controlLEDs();` print the reading, `sendDataToPythonServer();
delay(15000);` — a straight-line sequence with no branching. -/
def loopCycle (env : CycleEnv) (g0 : Globals) : CycleResult :=
  let g1 := readDHTData env g0
  let g2 := readSoundLevel env g1
  let leds := controlLEDs g2
  let send := sendDataToPythonServer env g2
  { globals := send.globals
    leds := leds
    serialLog := serialReadingLine g2 :: send.log
    events := send.events
    delays := [15000]
    steps := [CycleStep.senseDHT, CycleStep.senseSound, CycleStep.actuate,
              CycleStep.logSerial, CycleStep.report, CycleStep.sleep 15000] }

/-- `n` iterations of `loop()` (the Arduino runtime calls `loop` forever;
`run` gives the finite prefix of that infinite execution after `n`
calls), threading the globals and concatenating the step traces. -/
def run (envs : ℕ → CycleEnv) (g : Globals) : ℕ → Globals × List CycleStep
  | 0 => (g, [])
  | n + 1 =>
    let prev := run envs g n
    let res := loopCycle (envs n) prev.1
    (res.globals, prev.2 ++ res.steps)

/-- The fixed step sequence of one `loop()` iteration. -/
def cycleSteps : List CycleStep :=
  [CycleStep.senseDHT, CycleStep.senseSound, CycleStep.actuate,
   CycleStep.logSerial, CycleStep.report, CycleStep.sleep 15000]

/-! ### A standard JSON parser (restricted to objects of numeric fields,
which is all the payload grammar needs; no whitespace appears in the
payload) -/

/-- Value of a big-endian list of ASCII digit characters. -/
def digitsVal (l : List Char) : ℕ :=
  l.foldl (fun a c => 10 * a + digitVal c) 0

/-- Parse an unsigned JSON number: a nonempty run of digits, optionally
a point followed by a nonempty run of fraction digits. Returns the value
and the unconsumed input. -/
def parseUnsignedNumber (cs : List Char) : Option (ℚ × List Char) :=
  let ipChars := cs.takeWhile Char.isDigit
  let cs2 := cs.dropWhile Char.isDigit
  if ipChars.isEmpty then none
  else
    let ip : ℚ := digitsVal ipChars
    if cs2.head? = some (Char.ofNat 46) then
      let cs3 := cs2.tail
      let fChars := cs3.takeWhile Char.isDigit
      let cs4 := cs3.dropWhile Char.isDigit
      if fChars.isEmpty then none
      else some (ip + (digitsVal fChars : ℚ) / 10 ^ fChars.length, cs4)
    else some (ip, cs2)

/-- Parse a JSON number: an optional minus sign followed by an unsigned
number. -/
def parseNumber (cs : List Char) : Option (ℚ × List Char) :=
  if cs.head? = some (Char.ofNat 45) then
    match parseUnsignedNumber cs.tail with
    | some (v, rest) => some (-v, rest)
    | none => none
  else parseUnsignedNumber cs

/-- Parse a JSON string literal (no escapes occur in the payload keys). -/
def parseStringLit (cs : List Char) : Option (List Char × List Char) :=
  if cs.head? = some (Char.ofNat 34) then
    let cs1 := cs.tail
    let rest := cs1.dropWhile (fun d => d ≠ Char.ofNat 34)
    if rest.head? = some (Char.ofNat 34) then
      some (cs1.takeWhile (fun d => d ≠ Char.ofNat 34), rest.tail)
    else none
  else none

/-- Parse one `"key":number` member. -/
def parseMember (cs : List Char) : Option ((List Char × ℚ) × List Char) :=
  match parseStringLit cs with
  | some (key, cs1) =>
    if cs1.head? = some (Char.ofNat 58) then
      match parseNumber cs1.tail with
      | some (v, cs3) => some ((key, v), cs3)
      | none => none
    else none
  | none => none

/-- Parse a comma-separated nonempty sequence of members. -/
def parseMembers : ℕ → List Char → Option (List (List Char × ℚ) × List Char)
  | 0, _ => none
  | fuel + 1, cs =>
    match parseMember cs with
    | some (kv, rest) =>
      if rest.head? = some (Char.ofNat 44) then
        match parseMembers fuel rest.tail with
        | some (l, r) => some (kv :: l, r)
        | none => none
      else some ([kv], rest)
    | none => none

/-- Parse a whole JSON object `\x7b members \x7d` spanning the entire
input, returning its (key, numeric value) members in order. -/
def parseJson (s : String) : Option (List (List Char × ℚ)) :=
  if s.data.head? = some (Char.ofNat 123) then
    let cs := s.data.tail
    match parseMembers cs.length cs with
    | some (l, rest) => if rest = [Char.ofNat 125] then some l else none
    | none => none
  else none

/-! ### Theorems -/

/-- C1: the threshold actuator sets the temperature indicator high iff
`temperature >= 25.6`, the humidity indicator high iff `humidity > 40.0`
(strictly), and the sound indicator high iff `soundValue >= 200`; at the
boundary reading (25.6, 40.0, 200) the outputs are (HIGH, LOW, HIGH). -/
theorem controlLEDs_thresholds (g : Globals) :
    ((controlLEDs g).tempLed = Level.HIGH ↔ g.temperature ≥ 25.6) ∧
    ((controlLEDs g).humLed = Level.HIGH ↔ g.humidity > 40.0) ∧
    ((controlLEDs g).soundLed = Level.HIGH ↔ g.soundValue ≥ 200) ∧
    controlLEDs { temperature := 25.6, humidity := 40.0, soundValue := 200 } =
      { tempLed := Level.HIGH, humLed := Level.LOW, soundLed := Level.HIGH } := by
  refine ⟨?_, ?_, ?_, ?_⟩
  · by_cases h : g.temperature ≥ 25.6 <;> simp [controlLEDs, h]
  · by_cases h : g.humidity > 40.0 <;> simp [controlLEDs, h]
  · by_cases h : g.soundValue ≥ 200 <;> simp [controlLEDs, h]
  · norm_num [controlLEDs]

/-- C3: when the Wi-Fi link is not connected, the reporter logs exactly
the skip message, performs no HTTP client calls at all, and leaves the
globals unchanged (the reading is dropped, not queued). -/
theorem sendData_disconnected_skips (env : CycleEnv) (g : Globals)
    (h : env.wifiStatus ≠ WifiStatus.WL_CONNECTED) :
    (sendDataToPythonServer env g).log =
        ["Wi-Fi disconnected. Cannot send data."] ∧
    (sendDataToPythonServer env g).events = [] ∧
    (sendDataToPythonServer env g).globals = g := by
  unfold sendDataToPythonServer
  rw [if_neg h]
  exact ⟨rfl, rfl, rfl⟩

/-- Witness for C3 at a concrete disconnected environment. -/
theorem sendData_disconnected_skips_witness :
    (sendDataToPythonServer
        { tempSensor := { temperature := 20, humidity := 30 }
          humSensor := { temperature := 20, humidity := 30 }
          analogSound := 100
          wifiStatus := WifiStatus.WL_DISCONNECTED
          postResponseCode := 200
          responseBody := "ok" }
        { temperature := 26, humidity := 35, soundValue := 150 }).log =
      ["Wi-Fi disconnected. Cannot send data."] ∧
    (sendDataToPythonServer
        { tempSensor := { temperature := 20, humidity := 30 }
          humSensor := { temperature := 20, humidity := 30 }
          analogSound := 100
          wifiStatus := WifiStatus.WL_DISCONNECTED
          postResponseCode := 200
          responseBody := "ok" }
        { temperature := 26, humidity := 35, soundValue := 150 }).events = [] ∧
    (sendDataToPythonServer
        { tempSensor := { temperature := 20, humidity := 30 }
          humSensor := { temperature := 20, humidity := 30 }
          analogSound := 100
          wifiStatus := WifiStatus.WL_DISCONNECTED
          postResponseCode := 200
          responseBody := "ok" }
        { temperature := 26, humidity := 35, soundValue := 150 }).globals =
      { temperature := 26, humidity := 35, soundValue := 150 } :=
  sendData_disconnected_skips _ _ (by decide)

/-- C4: when connected, a response code `> 0` is treated as success and
the response body is logged verbatim; a response code `≤ 0` is logged as
an error; in both cases exactly one POST is issued (no retry) and the
globals are unchanged, so control returns normally. -/
theorem sendData_response_handling (env : CycleEnv) (g : Globals)
    (h : env.wifiStatus = WifiStatus.WL_CONNECTED) :
    (env.postResponseCode > 0 →
      (sendDataToPythonServer env g).log =
        ["Response: " ++ env.responseBody] ∧
      (sendDataToPythonServer env g).events =
        [HttpEvent.begin serverURL,
         HttpEvent.addHeader "Content-Type" "application/json",
         HttpEvent.post (jsonPayload g), HttpEvent.getString,
         HttpEvent.endCall]) ∧
    (env.postResponseCode ≤ 0 →
      (sendDataToPythonServer env g).log =
        ["Error sending data: " ++ toString env.postResponseCode] ∧
      (sendDataToPythonServer env g).events =
        [HttpEvent.begin serverURL,
         HttpEvent.addHeader "Content-Type" "application/json",
         HttpEvent.post (jsonPayload g), HttpEvent.endCall]) ∧
    (sendDataToPythonServer env g).globals = g := by
  simp only [sendDataToPythonServer, if_pos h]
  by_cases hc : env.postResponseCode > 0
  · exact ⟨fun _ => by simp [hc], fun hle => absurd hc (by omega), by trivial⟩
  · exact ⟨fun hgt => absurd hgt hc, fun _ => by simp [hc], by trivial⟩

/-- Witness for C4 at a concrete connected environment with response
code `-1` (Scenario D). -/
theorem sendData_response_handling_witness :
    (sendDataToPythonServer
        { tempSensor := { temperature := 20, humidity := 30 }
          humSensor := { temperature := 20, humidity := 30 }
          analogSound := 100
          wifiStatus := WifiStatus.WL_CONNECTED
          postResponseCode := -1
          responseBody := "" }
        { temperature := 26, humidity := 35, soundValue := 150 }).log =
      ["Error sending data: " ++ toString (-1 : ℤ)] ∧
    (sendDataToPythonServer
        { tempSensor := { temperature := 20, humidity := 30 }
          humSensor := { temperature := 20, humidity := 30 }
          analogSound := 100
          wifiStatus := WifiStatus.WL_CONNECTED
          postResponseCode := -1
          responseBody := "" }
        { temperature := 26, humidity := 35, soundValue := 150 }).events =
      [HttpEvent.begin serverURL,
       HttpEvent.addHeader "Content-Type" "application/json",
       HttpEvent.post
         (jsonPayload { temperature := 26, humidity := 35, soundValue := 150 }),
       HttpEvent.endCall] := by
  have h := sendData_response_handling
    { tempSensor := { temperature := 20, humidity := 30 }
      humSensor := { temperature := 20, humidity := 30 }
      analogSound := 100
      wifiStatus := WifiStatus.WL_CONNECTED
      postResponseCode := -1
      responseBody := "" }
    { temperature := 26, humidity := 35, soundValue := 150 } rfl
  exact h.2.1 (by decide)

/-- C5: the indicator outputs of a cycle depend only on the sensed
values: two cycles whose environments agree on the sensor samples give
identical LED states, whatever the network state, HTTP response, or
previous globals. -/
theorem indicators_independent_of_network (e1 e2 : CycleEnv)
    (g1 g2 : Globals)
    (ht : e1.tempSensor.temperature = e2.tempSensor.temperature)
    (hh : e1.humSensor.humidity = e2.humSensor.humidity)
    (hs : e1.analogSound = e2.analogSound) :
    (loopCycle e1 g1).leds = (loopCycle e2 g2).leds := by
  simp only [loopCycle, readDHTData, readSoundLevel, controlLEDs, ht, hh, hs]

/-- Witness for C5: two concrete environments with the same sensor
samples but opposite connectivity yield the same LED states. -/
theorem indicators_independent_of_network_witness :
    (loopCycle
        { tempSensor := { temperature := 26, humidity := 50 }
          humSensor := { temperature := 22, humidity := 35 }
          analogSound := 150
          wifiStatus := WifiStatus.WL_CONNECTED
          postResponseCode := 200
          responseBody := "ok" }
        { temperature := 0, humidity := 0, soundValue := 0 }).leds =
      (loopCycle
        { tempSensor := { temperature := 26, humidity := 50 }
          humSensor := { temperature := 22, humidity := 35 }
          analogSound := 150
          wifiStatus := WifiStatus.WL_DISCONNECTED
          postResponseCode := -1
          responseBody := "" }
        { temperature := 99, humidity := 99, soundValue := 999 }).leds :=
  indicators_independent_of_network _ _ _ _ rfl rfl rfl

/-- C8: on every path on which the reporter opens an HTTP request
(`http.begin`), its last HTTP client call is `http.end()` — the
connection is closed whether the response code was positive or not. -/
theorem sendData_closes_connection (env : CycleEnv) (g : Globals)
    (h : HttpEvent.begin serverURL ∈ (sendDataToPythonServer env g).events) :
    (sendDataToPythonServer env g).events.getLast? =
      some HttpEvent.endCall := by
  simp only [sendDataToPythonServer] at h ⊢
  by_cases hw : env.wifiStatus = WifiStatus.WL_CONNECTED
  · rw [if_pos hw]
    by_cases hc : env.postResponseCode > 0 <;> simp [hc]
  · rw [if_neg hw] at h
    simp at h

/-- Witness for C8 at a concrete connected environment. -/
theorem sendData_closes_connection_witness :
    (sendDataToPythonServer
        { tempSensor := { temperature := 20, humidity := 30 }
          humSensor := { temperature := 20, humidity := 30 }
          analogSound := 100
          wifiStatus := WifiStatus.WL_CONNECTED
          postResponseCode := 200
          responseBody := "ok" }
        { temperature := 26, humidity := 35, soundValue := 150 }).events.getLast? =
      some HttpEvent.endCall :=
  sendData_closes_connection _ _ (by decide)

theorem join_replicate_comm (s : List CycleStep) :
    ∀ n, (List.replicate n s).flatten ++ s = s ++ (List.replicate n s).flatten := by
  intro n
  induction n with
  | zero => simp
  | succ n ih =>
    rw [List.replicate_succ, List.flatten_cons, List.append_assoc, ih,
      ← List.append_assoc]

theorem run_steps_eq (envs : ℕ → CycleEnv) (g : Globals) :
    ∀ n, (run envs g n).2 = (List.replicate n cycleSteps).flatten := by
  intro n
  induction n with
  | zero => rfl
  | succ n ih =>
    show (run envs g n).2 ++ cycleSteps = _
    rw [ih, List.replicate_succ, List.flatten_cons, join_replicate_comm]

/-- C6: every iteration of `loop()` appends exactly the fixed straight-line
sequence sense-DHT, sense-sound, actuate, log, report, sleep(15000 ms) to
the trace — no branching, no early exit — and after `n` iterations the
trace is exactly `n` copies of that sequence, for every `n` (the loop
repeats forever), each iteration performing exactly one 15 s delay. -/
theorem loop_fixed_sequence (envs : ℕ → CycleEnv) (g : Globals) (n : ℕ) :
    (run envs g (n + 1)).2 =
      (run envs g n).2 ++
        [CycleStep.senseDHT, CycleStep.senseSound, CycleStep.actuate,
         CycleStep.logSerial, CycleStep.report, CycleStep.sleep 15000] ∧
    (run envs g n).2 =
      (List.replicate n
        [CycleStep.senseDHT, CycleStep.senseSound, CycleStep.actuate,
         CycleStep.logSerial, CycleStep.report, CycleStep.sleep 15000]).flatten ∧
    (loopCycle (envs n) (run envs g n).1).delays = [15000] :=
  ⟨rfl, run_steps_eq envs g n, rfl⟩

theorem connectRun_some (fuel : ℕ) :
    ∀ (statusAt : ℕ → WifiStatus) (k : ℕ) (ds : List ℕ),
      connectRun statusAt fuel = some (k, ds) →
        statusAt k = WifiStatus.WL_CONNECTED ∧
        (∀ j, j < k → statusAt j ≠ WifiStatus.WL_CONNECTED) ∧
        ds = List.replicate k 500 := by
  induction fuel with
  | zero => intro statusAt k ds h; exact absurd h (by simp [connectRun])
  | succ fuel ih =>
    intro statusAt k ds h
    rw [connectRun] at h
    by_cases h0 : statusAt 0 = WifiStatus.WL_CONNECTED
    · rw [if_pos h0] at h
      obtain ⟨rfl, rfl⟩ : k = 0 ∧ ds = [] := by
        constructor <;> [exact (Prod.mk.injEq .. ▸ Option.some.inj h).1.symm;
          exact (Prod.mk.injEq .. ▸ Option.some.inj h).2.symm]
      exact ⟨h0, fun j hj => absurd hj (Nat.not_lt_zero j), rfl⟩
    · rw [if_neg h0] at h
      cases hrec : connectRun (fun n => statusAt (n + 1)) fuel with
      | none => rw [hrec] at h; exact absurd h (by simp)
      | some p =>
        obtain ⟨k', ds'⟩ := p
        rw [hrec] at h
        obtain ⟨hk, hds⟩ : k' + 1 = k ∧ 500 :: ds' = ds := by
          constructor <;> [exact (Prod.mk.injEq .. ▸ Option.some.inj h).1;
            exact (Prod.mk.injEq .. ▸ Option.some.inj h).2]
        obtain ⟨hc, hlt, hrep⟩ := ih (fun n => statusAt (n + 1)) k' ds' hrec
        subst hk hds
        refine ⟨hc, fun j hj => ?_, by rw [hrep, List.replicate_succ]⟩
        cases j with
        | zero => exact h0
        | succ j' => exact hlt j' (Nat.lt_of_succ_lt_succ hj)

theorem connectRun_none (fuel : ℕ) :
    ∀ statusAt : ℕ → WifiStatus,
      (∀ n, statusAt n ≠ WifiStatus.WL_CONNECTED) →
        connectRun statusAt fuel = none := by
  induction fuel with
  | zero => intro statusAt _; rfl
  | succ fuel ih =>
    intro statusAt h
    rw [connectRun, if_neg (h 0), ih (fun n => statusAt (n + 1)) (fun n => h (n + 1))]

/-- C7: `connectToWiFi` returns only when the radio reports
`WL_CONNECTED`: a run that returns after `k` polls saw a non-connected
status at every earlier poll and performed exactly one 500 ms delay per
failed poll (a fixed poll interval); and if the status is never
`WL_CONNECTED` the loop never exits, whatever the fuel bound — the call
diverges rather than failing. -/
theorem connect_blocks_until_associated (statusAt : ℕ → WifiStatus) :
    (∀ fuel k ds, connectRun statusAt fuel = some (k, ds) →
        statusAt k = WifiStatus.WL_CONNECTED ∧
        (∀ j, j < k → statusAt j ≠ WifiStatus.WL_CONNECTED) ∧
        ds = List.replicate k 500) ∧
    ((∀ n, statusAt n ≠ WifiStatus.WL_CONNECTED) →
      ∀ fuel, connectRun statusAt fuel = none) :=
  ⟨fun fuel k ds h => connectRun_some fuel statusAt k ds h,
   fun h fuel => connectRun_none fuel statusAt h⟩

/-- Witness for C7: a status oracle that connects at poll 2 makes
`connectRun` return after exactly two 500 ms delays with the connected
status, and the never-connected oracle makes it return `none`. -/
theorem connect_blocks_until_associated_witness :
    (fun n => if n = 2 then WifiStatus.WL_CONNECTED
              else WifiStatus.WL_DISCONNECTED) 2 = WifiStatus.WL_CONNECTED ∧
    ([500, 500] : List ℕ) = List.replicate 2 500 ∧
    connectRun (fun _ => WifiStatus.WL_DISCONNECTED) 7 = none := by
  have h1 := (connect_blocks_until_associated
    (fun n => if n = 2 then WifiStatus.WL_CONNECTED
              else WifiStatus.WL_DISCONNECTED)).1 5 2 [500, 500] (by rfl)
  have h2 := (connect_blocks_until_associated
    (fun _ => WifiStatus.WL_DISCONNECTED)).2
    (fun n h => WifiStatus.noConfusion h) 7
  exact ⟨h1.1, h1.2.2, h2⟩

/-- C9: the reporter never modifies the reading: on every path the
globals after `sendDataToPythonServer` equal the globals before. -/
theorem sendData_preserves_reading (env : CycleEnv) (g : Globals) :
    (sendDataToPythonServer env g).globals = g := by
  unfold sendDataToPythonServer
  by_cases hw : env.wifiStatus = WifiStatus.WL_CONNECTED
  · rw [if_pos hw]
  · rw [if_neg hw]

/-- C10: each sensor read overwrites only its own fields: `readDHTData`
writes `temperature` and `humidity` (from the respective sensors) and
leaves `soundValue` unchanged; `readSoundLevel` writes `soundValue` and
leaves `temperature` and `humidity` unchanged. -/
theorem sensor_reads_frame (env : CycleEnv) (g : Globals) :
    (readDHTData env g).soundValue = g.soundValue ∧
    (readDHTData env g).temperature = env.tempSensor.temperature ∧
    (readDHTData env g).humidity = env.humSensor.humidity ∧
    (readSoundLevel env g).temperature = g.temperature ∧
    (readSoundLevel env g).humidity = g.humidity ∧
    (readSoundLevel env g).soundValue = env.analogSound :=
  ⟨rfl, rfl, rfl, rfl, rfl, rfl⟩


/-! ### Digit and rendering lemmas for the payload round-trip -/

theorem isDigit_digitChar (d : ℕ) (h : d < 10) :
    (digitChar d).isDigit = true := by
  interval_cases d <;> decide

theorem digitVal_digitChar (d : ℕ) (h : d < 10) :
    digitVal (digitChar d) = d := by
  interval_cases d <;> decide

theorem isDigit_ne_45 (c : Char) (h : c.isDigit = true) :
    c ≠ Char.ofNat 45 := by
  intro hc
  rw [hc] at h
  exact absurd h (by decide)

theorem isDigit_ne_46 (c : Char) (h : c.isDigit = true) :
    c ≠ Char.ofNat 46 := by
  intro hc
  rw [hc] at h
  exact absurd h (by decide)

theorem natChars_digits (n : ℕ) :
    ∀ c ∈ natChars n, c.isDigit = true := by
  intro c hc
  unfold natChars at hc
  by_cases h : n = 0
  · rw [if_pos h] at hc
    simp only [List.mem_singleton] at hc
    subst hc
    decide
  · rw [if_neg h] at hc
    rw [List.mem_reverse, List.mem_map] at hc
    obtain ⟨d, hd, rfl⟩ := hc
    exact isDigit_digitChar d (Nat.digits_lt_base (by norm_num) hd)

theorem natChars_ne_nil (n : ℕ) : natChars n ≠ [] := by
  unfold natChars
  by_cases h : n = 0
  · simp [h]
  · rw [if_neg h]
    simp [h, Nat.digits_eq_nil_iff_eq_zero]

theorem takeWhile_dropWhile_append (p : Char → Bool) (xs rest : List Char)
    (hx : ∀ c ∈ xs, p c = true)
    (hr : ∀ c, rest.head? = some c → p c = false) :
    (xs ++ rest).takeWhile p = xs ∧ (xs ++ rest).dropWhile p = rest := by
  induction xs with
  | nil =>
    simp only [List.nil_append]
    cases rest with
    | nil => simp
    | cons c cs =>
      rw [List.takeWhile_cons, List.dropWhile_cons, hr c rfl]
      simp
  | cons x xs ih =>
    have hx0 : p x = true := hx x (by simp)
    obtain ⟨ht, hd⟩ := ih (fun c hc => hx c (by simp [hc]))
    simp only [List.cons_append, List.takeWhile_cons, List.dropWhile_cons, hx0,
      ht, hd]
    simp

theorem foldl_digitsVal (l : List ℕ) (h : ∀ d ∈ l, d < 10) :
    ∀ a : ℕ, (l.map digitChar).foldl (fun x c => 10 * x + digitVal c) a =
      a * 10 ^ l.length + Nat.ofDigits 10 l.reverse := by
  induction l with
  | nil => intro a; simp [Nat.ofDigits]
  | cons d ds ih =>
    intro a
    simp only [List.map_cons, List.foldl_cons, List.length_cons,
      List.reverse_cons]
    rw [digitVal_digitChar d (h d (by simp)),
      ih (fun x hx => h x (by simp [hx])) (10 * a + d),
      Nat.ofDigits_append]
    simp [Nat.ofDigits]
    ring

theorem digitsVal_natChars (n : ℕ) : digitsVal (natChars n) = n := by
  unfold digitsVal natChars
  by_cases h : n = 0
  · rw [if_pos h, h]
    decide
  · rw [if_neg h, ← List.map_reverse,
      foldl_digitsVal ((Nat.digits 10 n).reverse)
        (fun d hd => Nat.digits_lt_base (by norm_num) (List.mem_reverse.mp hd))]
    simp [Nat.ofDigits_digits]

theorem parseUnsignedNumber_frac (i fd : ℕ) (hfd : fd < 10)
    (rest : List Char)
    (hr : ∀ c, rest.head? = some c → c.isDigit = false) :
    parseUnsignedNumber
        (natChars i ++ Char.ofNat 46 :: digitChar fd :: rest) =
      some ((i : ℚ) + (fd : ℚ) / 10, rest) := by
  have hr1 : ∀ c, (Char.ofNat 46 :: digitChar fd :: rest).head? = some c →
      Char.isDigit c = false := by
    intro c hc
    rw [List.head?_cons, Option.some.injEq] at hc
    subst hc
    decide
  have hx2 : ∀ c ∈ [digitChar fd], Char.isDigit c = true := by
    intro c hc
    rw [List.mem_singleton] at hc
    subst hc
    exact isDigit_digitChar fd hfd
  obtain ⟨ht, hd⟩ := takeWhile_dropWhile_append Char.isDigit (natChars i)
    (Char.ofNat 46 :: digitChar fd :: rest) (natChars_digits i) hr1
  obtain ⟨ht2, hd2⟩ :=
    takeWhile_dropWhile_append Char.isDigit [digitChar fd] rest hx2 hr
  rw [List.singleton_append] at ht2 hd2
  have hne : (natChars i).isEmpty = false := by
    rw [List.isEmpty_eq_false]
    exact natChars_ne_nil i
  have hfds : digitsVal [digitChar fd] = fd := by
    unfold digitsVal
    simp [digitVal_digitChar fd hfd]
  simp only [parseUnsignedNumber, ht, hd, hne, Bool.false_eq_true, if_false,
    List.head?_cons, Option.some.injEq, List.tail_cons, ht2, hd2,
    digitsVal_natChars, hfds]
  rw [if_pos trivial]
  have hne2 : ([digitChar fd] : List Char).isEmpty = false := rfl
  rw [hne2]
  simp only [Bool.false_eq_true, if_false, List.length_singleton, pow_one]

theorem parseUnsignedNumber_int (i : ℕ) (rest : List Char)
    (hr : ∀ c, rest.head? = some c →
      c.isDigit = false ∧ c ≠ Char.ofNat 46) :
    parseUnsignedNumber (natChars i ++ rest) = some ((i : ℚ), rest) := by
  obtain ⟨ht, hd⟩ := takeWhile_dropWhile_append Char.isDigit (natChars i)
    rest (natChars_digits i) (fun c hc => (hr c hc).1)
  have hne : (natChars i).isEmpty = false := by
    rw [List.isEmpty_eq_false]
    exact natChars_ne_nil i
  have h46 : ¬ rest.head? = some (Char.ofNat 46) := by
    intro hcon
    exact (hr _ hcon).2 rfl
  simp only [parseUnsignedNumber, ht, hd, hne, Bool.false_eq_true, if_false,
    digitsVal_natChars]
  rw [if_neg h46]

theorem parseNumber_neg (cs : List Char) (v : ℚ) (rest : List Char)
    (h : parseUnsignedNumber cs = some (v, rest)) :
    parseNumber (Char.ofNat 45 :: cs) = some (-v, rest) := by
  simp [parseNumber, h]

theorem parseNumber_nonneg (cs : List Char) (v : ℚ) (rest : List Char)
    (hhead : ¬ cs.head? = some (Char.ofNat 45))
    (h : parseUnsignedNumber cs = some (v, rest)) :
    parseNumber cs = some (v, rest) := by
  simp only [parseNumber, if_neg hhead, h]

theorem natChars_append_head_ne_45 (i : ℕ) (rest : List Char) :
    ¬ (natChars i ++ rest).head? = some (Char.ofNat 45) := by
  obtain ⟨hd, tl, hht⟩ := List.exists_cons_of_ne_nil (natChars_ne_nil i)
  rw [hht, List.cons_append, List.head?_cons]
  intro hcon
  rw [Option.some.injEq] at hcon
  exact isDigit_ne_45 hd (natChars_digits i hd (by rw [hht]; simp)) hcon

theorem parseNumber_fixed1 (q : ℚ) (rest : List Char)
    (hr : ∀ c, rest.head? = some c → c.isDigit = false) :
    parseNumber (fixed1Chars q ++ rest) =
      some (((round (10 * q) : ℤ) : ℚ) / 10, rest) := by
  have key : ∀ m : ℕ,
      parseUnsignedNumber
          (natChars (m / 10) ++ Char.ofNat 46 :: digitChar (m % 10) :: rest) =
        some ((m : ℚ) / 10, rest) := by
    intro m
    rw [parseUnsignedNumber_frac (m / 10) (m % 10)
      (Nat.mod_lt m (by norm_num)) rest hr]
    congr 2
    field_simp
    norm_cast
    omega
  simp only [fixed1Chars]
  by_cases hneg : round (10 * q) < 0
  · rw [if_pos hneg]
    have hshape :
        (([Char.ofNat 45] ++ natChars ((round (10 * q)).natAbs / 10) ++
            Char.ofNat 46 :: [digitChar ((round (10 * q)).natAbs % 10)]) ++
          rest) =
        Char.ofNat 45 ::
          (natChars ((round (10 * q)).natAbs / 10) ++
            Char.ofNat 46 ::
              digitChar ((round (10 * q)).natAbs % 10) :: rest) := by
      simp
    rw [hshape, parseNumber_neg _ _ _ (key (round (10 * q)).natAbs)]
    congr 2
    rw [Int.cast_natAbs, abs_of_neg (by exact_mod_cast hneg)]
    push_cast
    ring
  · rw [if_neg hneg]
    have hshape :
        ((([] : List Char) ++ natChars ((round (10 * q)).natAbs / 10) ++
            Char.ofNat 46 :: [digitChar ((round (10 * q)).natAbs % 10)]) ++
          rest) =
        (natChars ((round (10 * q)).natAbs / 10) ++
          Char.ofNat 46 ::
            digitChar ((round (10 * q)).natAbs % 10) :: rest) := by
      simp
    rw [hshape, parseNumber_nonneg _ _ _ (natChars_append_head_ne_45 _ _)
      (key (round (10 * q)).natAbs)]
    congr 2
    rw [Int.cast_natAbs, abs_of_nonneg (by exact_mod_cast not_lt.mp hneg)]

theorem parseNumber_int (z : ℤ) (rest : List Char)
    (hr : ∀ c, rest.head? = some c →
      c.isDigit = false ∧ c ≠ Char.ofNat 46) :
    parseNumber (intChars z ++ rest) = some ((z : ℚ), rest) := by
  unfold intChars
  by_cases hneg : z < 0
  · rw [if_pos hneg, List.cons_append,
      parseNumber_neg _ _ _ (parseUnsignedNumber_int z.natAbs rest hr)]
    congr 2
    rw [Int.cast_natAbs, abs_of_neg (by exact_mod_cast hneg)]
    push_cast
    ring
  · rw [if_neg hneg,
      parseNumber_nonneg _ _ _ (natChars_append_head_ne_45 _ _)
        (parseUnsignedNumber_int z.natAbs rest hr)]
    congr 2
    rw [Int.cast_natAbs, abs_of_nonneg (by exact_mod_cast not_lt.mp hneg)]

theorem string_mk_data (l : List Char) : (String.mk l).data = l := rfl

theorem parseStringLit_key (key rest : List Char)
    (hk : ∀ c ∈ key, c ≠ Char.ofNat 34) :
    parseStringLit (Char.ofNat 34 :: (key ++ Char.ofNat 34 :: rest)) =
      some (key, rest) := by
  obtain ⟨ht, hd⟩ := takeWhile_dropWhile_append
    (fun d => d ≠ Char.ofNat 34) key (Char.ofNat 34 :: rest)
    (fun c hc => decide_eq_true (hk c hc))
    (fun c hc => by
      rw [List.head?_cons, Option.some.injEq] at hc
      subst hc
      decide)
  simp only [parseStringLit, List.head?_cons, Option.some.injEq,
    List.tail_cons, ht, hd, if_true]

theorem parseMember_eval (key cs : List Char) (v : ℚ) (rest : List Char)
    (hkey : ∀ c ∈ key, c ≠ Char.ofNat 34)
    (hnum : parseNumber cs = some (v, rest)) :
    parseMember
        (Char.ofNat 34 :: (key ++ Char.ofNat 34 :: Char.ofNat 58 :: cs)) =
      some ((key, v), rest) := by
  have h1 := parseStringLit_key key (Char.ofNat 58 :: cs) hkey
  simp only [parseMember, h1, List.head?_cons, Option.some.injEq,
    List.tail_cons, hnum, if_true]

theorem parseMembers_eval (fuel : ℕ) (hfuel : 3 ≤ fuel)
    (cs cs2 cs3 last : List Char)
    (kv1 kv2 kv3 : List Char × ℚ)
    (h1 : parseMember cs = some (kv1, Char.ofNat 44 :: cs2))
    (h2 : parseMember cs2 = some (kv2, Char.ofNat 44 :: cs3))
    (h3 : parseMember cs3 = some (kv3, last))
    (hlast : ¬ last.head? = some (Char.ofNat 44)) :
    parseMembers fuel cs = some ([kv1, kv2, kv3], last) := by
  obtain ⟨k, rfl⟩ : ∃ k, fuel = k + 1 + 1 + 1 := ⟨fuel - 3, by omega⟩
  simp only [parseMembers, h1, h2, h3, List.head?_cons, Option.some.injEq,
    List.tail_cons, if_true, if_neg hlast]

/-- C2: the body built by the reporter is a JSON object whose parse
yields exactly the three numeric fields `temperature`, `humidity`,
`sound` — temperature and humidity as the one-decimal-place roundings of
the reading, sound as the integer reading — and the POSTed body is
exactly this payload whenever a POST happens. -/
theorem payload_roundtrip (g : Globals) :
    parseJson (jsonPayload g) =
      some [("temperature".data,
              ((round (10 * g.temperature) : ℤ) : ℚ) / 10),
            ("humidity".data,
              ((round (10 * g.humidity) : ℤ) : ℚ) / 10),
            ("sound".data, (g.soundValue : ℚ))] ∧
    (∀ env : CycleEnv, env.wifiStatus = WifiStatus.WL_CONNECTED →
      HttpEvent.post (jsonPayload g) ∈ (sendDataToPythonServer env g).events) := by
  constructor
  · have hno44 : ∀ c : Char,
        ([Char.ofNat 125] : List Char).head? = some c → c.isDigit = false ∧
          c ≠ Char.ofNat 46 := by
      intro c hc
      rw [List.head?_cons, Option.some.injEq] at hc
      subst hc
      exact ⟨by decide, by decide⟩
    have hhead44 : ∀ (cs : List Char) (c : Char),
        (Char.ofNat 44 :: cs).head? = some c → c.isDigit = false := by
      intro cs c hc
      rw [List.head?_cons, Option.some.injEq] at hc
      subst hc
      decide
    have h3 : parseMember
        (Char.ofNat 34 :: ("sound".data ++ Char.ofNat 34 :: Char.ofNat 58 ::
          (intChars g.soundValue ++ [Char.ofNat 125]))) =
        some (("sound".data, (g.soundValue : ℚ)), [Char.ofNat 125]) :=
      parseMember_eval "sound".data _ _ _ (by decide)
        (parseNumber_int g.soundValue [Char.ofNat 125] hno44)
    have h2 : parseMember
        (Char.ofNat 34 :: ("humidity".data ++ Char.ofNat 34 :: Char.ofNat 58 ::
          (fixed1Chars g.humidity ++ Char.ofNat 44 ::
            Char.ofNat 34 :: ("sound".data ++ Char.ofNat 34 :: Char.ofNat 58 ::
              (intChars g.soundValue ++ [Char.ofNat 125]))))) =
        some (("humidity".data, ((round (10 * g.humidity) : ℤ) : ℚ) / 10),
          Char.ofNat 44 ::
            Char.ofNat 34 :: ("sound".data ++ Char.ofNat 34 :: Char.ofNat 58 ::
              (intChars g.soundValue ++ [Char.ofNat 125]))) :=
      parseMember_eval "humidity".data _ _ _ (by decide)
        (parseNumber_fixed1 g.humidity _ (hhead44 _))
    have h1 : parseMember
        (Char.ofNat 34 :: ("temperature".data ++ Char.ofNat 34 :: Char.ofNat 58 ::
          (fixed1Chars g.temperature ++ Char.ofNat 44 ::
            Char.ofNat 34 :: ("humidity".data ++ Char.ofNat 34 :: Char.ofNat 58 ::
              (fixed1Chars g.humidity ++ Char.ofNat 44 ::
                Char.ofNat 34 :: ("sound".data ++ Char.ofNat 34 :: Char.ofNat 58 ::
                  (intChars g.soundValue ++ [Char.ofNat 125]))))))) =
        some (("temperature".data, ((round (10 * g.temperature) : ℤ) : ℚ) / 10),
          Char.ofNat 44 ::
            Char.ofNat 34 :: ("humidity".data ++ Char.ofNat 34 :: Char.ofNat 58 ::
              (fixed1Chars g.humidity ++ Char.ofNat 44 ::
                Char.ofNat 34 :: ("sound".data ++ Char.ofNat 34 :: Char.ofNat 58 ::
                  (intChars g.soundValue ++ [Char.ofNat 125]))))) :=
      parseMember_eval "temperature".data _ _ _ (by decide)
        (parseNumber_fixed1 g.temperature _ (hhead44 _))
    have k0 : ("\x7b" : String).data = [Char.ofNat 123] := by decide
    have k1 : ("\"temperature\":" : String).data =
        Char.ofNat 34 :: ("temperature".data ++ [Char.ofNat 34, Char.ofNat 58]) := by
      decide
    have kc : ("," : String).data = [Char.ofNat 44] := by decide
    have k2 : ("\"humidity\":" : String).data =
        Char.ofNat 34 :: ("humidity".data ++ [Char.ofNat 34, Char.ofNat 58]) := by
      decide
    have k3 : ("\"sound\":" : String).data =
        Char.ofNat 34 :: ("sound".data ++ [Char.ofNat 34, Char.ofNat 58]) := by
      decide
    have k4 : ("\x7d" : String).data = [Char.ofNat 125] := by decide
    have hdata : (jsonPayload g).data =
        Char.ofNat 123 ::
          Char.ofNat 34 :: ("temperature".data ++ Char.ofNat 34 :: Char.ofNat 58 ::
            (fixed1Chars g.temperature ++ Char.ofNat 44 ::
              Char.ofNat 34 :: ("humidity".data ++ Char.ofNat 34 :: Char.ofNat 58 ::
                (fixed1Chars g.humidity ++ Char.ofNat 44 ::
                  Char.ofNat 34 :: ("sound".data ++ Char.ofNat 34 :: Char.ofNat 58 ::
                    (intChars g.soundValue ++ [Char.ofNat 125])))))) := by
      simp only [jsonPayload, formatFixed1, intString, String.data_append,
        string_mk_data, k0, k1, kc, k2, k3, k4, List.cons_append,
        List.append_assoc, List.nil_append, List.singleton_append]
    have hfuel : 3 ≤
        (Char.ofNat 34 :: ("temperature".data ++ Char.ofNat 34 :: Char.ofNat 58 ::
          (fixed1Chars g.temperature ++ Char.ofNat 44 ::
            Char.ofNat 34 :: ("humidity".data ++ Char.ofNat 34 :: Char.ofNat 58 ::
              (fixed1Chars g.humidity ++ Char.ofNat 44 ::
                Char.ofNat 34 :: ("sound".data ++ Char.ofNat 34 :: Char.ofNat 58 ::
                  (intChars g.soundValue ++ [Char.ofNat 125]))))))).length := by
      simp [List.length_cons, List.length_append]
    have hm := parseMembers_eval _ hfuel _ _ _ _ _ _ _ h1 h2 h3 (by decide)
    simp only [parseJson, hdata, List.head?_cons, Option.some.injEq,
      List.tail_cons, hm, if_true]
  · intro env henv
    simp only [sendDataToPythonServer, if_pos henv]
    by_cases hc : env.postResponseCode > 0 <;> simp [hc]

/-- Witness for the connected-POST part of C2 at a concrete reading and
environment. -/
theorem payload_roundtrip_witness :
    HttpEvent.post (jsonPayload { temperature := 26, humidity := 35, soundValue := 150 }) ∈
      (sendDataToPythonServer
        { tempSensor := { temperature := 20, humidity := 30 }
          humSensor := { temperature := 20, humidity := 30 }
          analogSound := 100
          wifiStatus := WifiStatus.WL_CONNECTED
          postResponseCode := 200
          responseBody := "ok" }
        { temperature := 26, humidity := 35, soundValue := 150 }).events :=
  (payload_roundtrip { temperature := 26, humidity := 35, soundValue := 150 }).2
    _ rfl

end Sketch
